import Mathlib

/-!
Verification of the PDF-rendering core of `src/server.py` (the
`generate_pdf` endpoint).  The renderer takes a triple
(title, content, type), builds an ordered list of layout blocks
(title paragraph, spacers, content paragraphs, tables) and returns it
together with a media type and a Content-Disposition header.

The JSON parser (`json.loads`) is an external library; the embedding
takes the parse as a parameter `parse : String → Except Unit Json`,
where `Except.error ()` models a raised exception.  Python's bare
`try/except` blocks are modelled by explicit `match` on the `Except`
value of the guarded computation.  Visual style parameters
(colors, fonts, paddings) are abstracted into style tags, since no
claim mentions them beyond identity of the style.
-/

namespace PdfService

/-- JSON values as produced by `json.loads`.  Numbers are modelled as
integers; no claim involves fractional numbers. -/
inductive Json where
  | null
  | bool (b : Bool)
  | num (n : Int)
  | str (s : String)
  | arr (elems : List Json)
  | obj (fields : List (String × Json))

/-- Python truthiness of a JSON value, as used by `if item.get('completed')`
and `if rows:` in the source. -/
def Json.truthy : Json → Bool
  | .null => false
  | .bool b => b
  | .num n => n != 0
  | .str s => !s.isEmpty
  | .arr xs => !xs.isEmpty
  | .obj fs => !fs.isEmpty

/-- `item.get(key, default)` from the source: succeeds only on a dict,
raising `AttributeError` (modelled as `Except.error`) on any other value. -/
def Json.get : Json → String → Json → Except Unit Json
  | .obj fs, key, dflt => .ok ((fs.lookup key).getD dflt)
  | _, _, _ => .error ()

/-- Whether a JSON value is an object (a Python dict). -/
def Json.isObj : Json → Bool
  | .obj _ => true
  | _ => false

/-- Python iteration `for item in items`: a list yields its elements, a
dict yields its keys, a string yields its one-character substrings;
anything else raises `TypeError` (modelled as `Except.error`). -/
def Json.iterate : Json → Except Unit (List Json)
  | .arr xs => .ok xs
  | .obj fs => .ok (fs.map fun f => Json.str f.1)
  | .str s => .ok (s.toList.map fun c => Json.str (String.mk [c]))
  | _ => .error ()

/-- Paragraph styles appearing in the source: the custom title style
(Heading1 derived, fontSize 24, spaceAfter 30) and the sample
stylesheet's Normal style. -/
inductive Style where
  | customTitle
  | normal

/-- Table style tags for the two `TableStyle` configurations of the
source (agenda table vs spreadsheet table). -/
inductive TStyle where
  | agenda
  | planilhas

/-- A flowable appended to the `story` list in the source: a
`Paragraph`, a `Spacer`, or a `Table` (rows of JSON cell values, an
optional column-width list in points, and a style tag). -/
inductive Block where
  | paragraph (text : String) (style : Style)
  | spacer (width height : Nat)
  | table (rows : List (List Json)) (colWidths : Option (List Nat)) (style : TStyle)

/-- The request body model `PDFContentModel` of the source. -/
structure PDFContentModel where
  title : String
  content : String
  type : String

/-- The observable response: the story handed to `doc.build`, the media
type, and the Content-Disposition header. -/
structure Response where
  story : List Block
  mediaType : String
  contentDisposition : String

/-- Python's `c.isspace()` characters in the ASCII range, as stripped by
`line.strip()`. -/
def pyIsSpace (c : Char) : Bool :=
  c = ' ' || c = '\t' || c = '\n' || c = '\r' || c = '\x0b' || c = '\x0c'

/-- Python's `line.strip()`: remove leading and trailing whitespace. -/
def pyStrip (s : String) : String :=
  String.mk (((s.toList.dropWhile pyIsSpace).reverse.dropWhile pyIsSpace).reverse)

/-- Python's `s.replace(old, new)` for single-character `old` and `new`,
as in `data.title.replace(' ', '_')`: replaces every occurrence. -/
def pyReplace (s : String) (a b : Char) : String :=
  String.mk (s.toList.map fun c => if c = a then b else c)

/-- Blocks contributed by one line in the `docs` branch: a Normal
paragraph plus a `Spacer(1, 12)` when `line.strip()` is truthy, nothing
otherwise. -/
def docsLineBlocks (line : String) : List Block :=
  if (pyStrip line).isEmpty then []
  else [Block.paragraph line Style.normal, Block.spacer 1 12]

/-- The `docs` branch: split `content` on newlines and emit the blocks
of each line in order. -/
def docsBlocks (content : String) : List Block :=
  (content.splitOn "\n").flatMap docsLineBlocks

/-- The fixed header row of the agenda table. -/
def agendaHeader : List Json :=
  [Json.str "Título", Json.str "Data", Json.str "Hora", Json.str "Status"]

/-- Column widths of the agenda table in points
(2.5, 1.5, 1, 1.5 inches). -/
def agendaColWidths : List Nat := [180, 108, 72, 108]

/-- One body row of the agenda table, from the loop body of the source:
`item.get('title','')`, `item.get('date','')`, `item.get('time','')`,
and the status cell.  Any `.get` on a non-dict raises. -/
def agendaRow (item : Json) : Except Unit (List Json) := do
  let t ← item.get "title" (Json.str "")
  let d ← item.get "date" (Json.str "")
  let tm ← item.get "time" (Json.str "")
  let comp ← item.get "completed" Json.null
  pure [t, d, tm, Json.str (if comp.truthy then "Concluído" else "Pendente")]

/-- The agenda loop: build the body rows in order, the first raised
exception aborting the whole table. -/
def agendaRowsE : List Json → Except Unit (List (List Json))
  | [] => .ok []
  | it :: its =>
    match agendaRow it with
    | .error e => .error e
    | .ok r =>
      match agendaRowsE its with
      | .error e => .error e
      | .ok rs => .ok (r :: rs)

/-- The guarded part of the `agenda` branch: parse the content, iterate
over the result, build the header plus body rows, and construct the
styled table. -/
def agendaTable (parse : String → Except Unit Json) (content : String) :
    Except Unit Block :=
  match parse content with
  | .error e => .error e
  | .ok items =>
    match items.iterate with
    | .error e => .error e
    | .ok elems =>
      match agendaRowsE elems with
      | .error e => .error e
      | .ok rows =>
        .ok (Block.table (agendaHeader :: rows) (some agendaColWidths) TStyle.agenda)

/-- The `reportlab` `Table(rows)` constructor requirement in the
`planilhas` branch: each row must itself be a sequence; a non-sequence
row raises inside the `try` block. -/
def asRowsE : List Json → Except Unit (List (List Json))
  | [] => .ok []
  | Json.arr cs :: rs =>
    match asRowsE rs with
    | .error e => .error e
    | .ok rest => .ok (cs :: rest)
  | _ :: _ => .error ()

/-- `Table(rows)` on the parsed value: requires a JSON array of arrays. -/
def Json.asRows : Json → Except Unit (List (List Json))
  | .arr rs => asRowsE rs
  | _ => .error ()

/-- The guarded part of the `planilhas` branch: parse the content; if
the parsed value is truthy, construct the styled table from its rows,
otherwise emit nothing. -/
def planilhasBlocks (parse : String → Except Unit Json) (content : String) :
    Except Unit (List Block) :=
  match parse content with
  | .error e => .error e
  | .ok rows =>
    if rows.truthy then
      match rows.asRows with
      | .error e => .error e
      | .ok rss => .ok [Block.table rss none TStyle.planilhas]
    else
      .ok []

/-- The title paragraph and the `Spacer(1, 12)` appended before the
type dispatch, common to every branch. -/
def titleStory (title : String) : List Block :=
  [Block.paragraph title Style.customTitle, Block.spacer 1 12]

/-- The response as assembled at the end of the endpoint: the story, the
`application/pdf` media type, and the Content-Disposition header built
from the title with spaces replaced by underscores. -/
def mkResponse (title : String) (story : List Block) : Response :=
  { story := story
    mediaType := "application/pdf"
    contentDisposition :=
      "attachment; filename=" ++ pyReplace title ' ' '_' ++ ".pdf" }

/-- The rendering core of the `generate_pdf` endpoint of
`src/server.py`.  The result type is `Except` because the HTTP handler
would propagate an uncaught exception; every fallible step of the body
sits inside a `try/except` that falls back to a plain paragraph of the
raw content. -/
def generate_pdf (parse : String → Except Unit Json) (data : PDFContentModel) :
    Except Unit Response :=
  let story :=
    if data.type = "docs" then
      titleStory data.title ++ docsBlocks data.content
    else if data.type = "agenda" then
      match agendaTable parse data.content with
      | .ok b => titleStory data.title ++ [b]
      | .error _ => titleStory data.title ++ [Block.paragraph data.content Style.normal]
    else if data.type = "planilhas" then
      match planilhasBlocks parse data.content with
      | .ok bs => titleStory data.title ++ bs
      | .error _ => titleStory data.title ++ [Block.paragraph data.content Style.normal]
    else
      titleStory data.title
  Except.ok (mkResponse data.title story)

/-! ## Spec-side definitions

These definitions follow the wording of the specification; the claims
compare them with the behaviour of the embedded code. -/

/-- Spec-side defaulting field lookup on a record: the value of `key`
when present, `dflt` otherwise. -/
def Json.getD : Json → String → Json → Json
  | .obj fs, key, dflt => (fs.lookup key).getD dflt
  | _, _, dflt => dflt

/-- Spec-side description of one agenda body row: title, date and time
fields defaulting to the empty string, and a status cell that is
"Concluído" exactly when the completed field is truthy and "Pendente"
otherwise. -/
def specAgendaRow (item : Json) : List Json :=
  [item.getD "title" (Json.str ""), item.getD "date" (Json.str ""),
   item.getD "time" (Json.str ""),
   Json.str (if (item.getD "completed" Json.null).truthy then "Concluído" else "Pendente")]

/-- Spec-side list of the lines of `content` that are non-blank after
trimming whitespace. -/
def specNonBlankLines (content : String) : List String :=
  (content.splitOn "\n").filter fun l => !(pyStrip l).isEmpty

/-- Whether a block is a paragraph block. -/
def Block.isParagraph : Block → Bool
  | .paragraph _ _ => true
  | _ => false

/-- The number of paragraph blocks in a block list. -/
def countParagraphs (bs : List Block) : Nat :=
  bs.countP Block.isParagraph

/-! ## Helper lemmas -/

/-- On a record object, the loop body of the agenda branch succeeds and
produces exactly the row described by the spec. -/
theorem agendaRow_obj (fs : List (String × Json)) :
    agendaRow (Json.obj fs) = .ok (specAgendaRow (Json.obj fs)) := rfl

/-- On a list of record objects, the agenda loop succeeds and produces
the spec-described rows in order. -/
theorem agendaRowsE_ok (items : List Json) (h : ∀ it ∈ items, it.isObj) :
    agendaRowsE items = .ok (items.map specAgendaRow) := by
  induction items with
  | nil => rfl
  | cons it its ih =>
    obtain ⟨fs, rfl⟩ : ∃ fs, it = Json.obj fs := by
      have hit := h it (List.mem_cons_self it its)
      cases it <;> simp [Json.isObj] at hit ⊢
    simp only [agendaRowsE, agendaRow_obj,
      ih fun x hx => h x (List.mem_cons_of_mem _ hx), List.map_cons]

/-- The docs branch emits, for each non-blank line in order, a Normal
paragraph followed by a spacer, and nothing for blank lines. -/
theorem docsBlocks_eq (content : String) :
    docsBlocks content = (specNonBlankLines content).flatMap
      fun l => [Block.paragraph l Style.normal, Block.spacer 1 12] := by
  unfold docsBlocks specNonBlankLines
  induction content.splitOn "\n" with
  | nil => rfl
  | cons l ls ih =>
    by_cases hl : (pyStrip l).isEmpty
    · simp [docsLineBlocks, hl, ih, List.filter_cons]
    · simp [docsLineBlocks, hl, ih, List.filter_cons]

/-- The docs branch produces exactly one paragraph block per non-blank
line. -/
theorem countParagraphs_docsBlocks (content : String) :
    countParagraphs (docsBlocks content) = (specNonBlankLines content).length := by
  rw [docsBlocks_eq]
  induction specNonBlankLines content with
  | nil => rfl
  | cons l ls ih =>
    simp [List.flatMap_cons, countParagraphs, List.countP_append,
      List.countP_cons, Block.isParagraph] at ih ⊢
    omega

/-- Every run of the renderer succeeds, with a story that starts with
the title paragraph and the title spacer. -/
theorem generate_pdf_shape (parse : String → Except Unit Json)
    (data : PDFContentModel) :
    ∃ rest, generate_pdf parse data =
      .ok (mkResponse data.title (titleStory data.title ++ rest)) := by
  by_cases h1 : data.type = "docs"
  · exact ⟨docsBlocks data.content, by simp [generate_pdf, h1]⟩
  by_cases h2 : data.type = "agenda"
  · cases htab : agendaTable parse data.content with
    | ok b =>
      exact ⟨[b], by simp [generate_pdf, h1, h2, htab]⟩
    | error e =>
      exact ⟨[Block.paragraph data.content Style.normal],
        by simp [generate_pdf, h1, h2, htab]⟩
  by_cases h3 : data.type = "planilhas"
  · cases htab : planilhasBlocks parse data.content with
    | ok bs =>
      exact ⟨bs, by simp [generate_pdf, h1, h2, h3, htab]⟩
    | error e =>
      exact ⟨[Block.paragraph data.content Style.normal],
        by simp [generate_pdf, h1, h2, h3, htab]⟩
  · exact ⟨[], by simp [generate_pdf, h1, h2, h3]⟩

/-! ## Claims -/

/-- C1: for type "agenda" with content parsing to a structured list of N
record objects, the rendered table has exactly N+1 rows: the fixed
header row ["Título", "Data", "Hora", "Status"] followed by one row per
record in order; missing title/date/time fields default to the empty
string, and the status column is "Concluído" when the record's completed
field is truthy and "Pendente" otherwise. -/
theorem claim1_agenda_table_rows (parse : String → Except Unit Json)
    (title content : String) (items : List Json)
    (hp : parse content = .ok (Json.arr items))
    (hobj : ∀ it ∈ items, it.isObj) :
    generate_pdf parse ⟨title, content, "agenda"⟩ =
      .ok (mkResponse title (titleStory title ++
        [Block.table (agendaHeader :: items.map specAgendaRow)
          (some agendaColWidths) TStyle.agenda])) ∧
    (agendaHeader :: items.map specAgendaRow).length = items.length + 1 := by
  have htab : agendaTable parse content =
      .ok (Block.table (agendaHeader :: items.map specAgendaRow)
        (some agendaColWidths) TStyle.agenda) := by
    simp only [agendaTable, hp, Json.iterate, agendaRowsE_ok items hobj]
  refine ⟨?_, by simp⟩
  simp [generate_pdf, htab]

/-- Witness for C1: a one-record agenda list with a truthy completed
field. -/
theorem claim1_witness :
    generate_pdf (fun _ => .ok (Json.arr [Json.obj [("completed", Json.bool true)]]))
        ⟨"T", "c", "agenda"⟩ =
      .ok (mkResponse "T" (titleStory "T" ++
        [Block.table (agendaHeader ::
            [Json.obj [("completed", Json.bool true)]].map specAgendaRow)
          (some agendaColWidths) TStyle.agenda])) ∧
    (agendaHeader ::
        [Json.obj [("completed", Json.bool true)]].map specAgendaRow).length =
      [Json.obj [("completed", Json.bool true)]].length + 1 :=
  claim1_agenda_table_rows _ "T" "c" _ rfl
    (by intro it hit; simp only [List.mem_singleton] at hit; subst hit; rfl)

/-- C2: for type "docs", the rendered body is one Normal paragraph block
followed by a fixed spacer for each line that is non-blank after
trimming, in order; blank lines contribute nothing, so the number of
paragraph content blocks equals the number of non-blank lines. -/
theorem claim2_docs_paragraphs (parse : String → Except Unit Json)
    (title content : String) :
    generate_pdf parse ⟨title, content, "docs"⟩ =
      .ok (mkResponse title (titleStory title ++
        (specNonBlankLines content).flatMap
          fun l => [Block.paragraph l Style.normal, Block.spacer 1 12])) ∧
    countParagraphs (docsBlocks content) = (specNonBlankLines content).length := by
  refine ⟨?_, countParagraphs_docsBlocks content⟩
  simp [generate_pdf, docsBlocks_eq]

/-- C3: the Content-Disposition filename is always the title with every
space replaced by an underscore, suffixed ".pdf", independent of type,
content, and parse outcome. -/
theorem claim3_filename (parse parse2 : String → Except Unit Json)
    (title content content2 ty ty2 : String) :
    ∃ r r2, generate_pdf parse ⟨title, content, ty⟩ = .ok r ∧
      generate_pdf parse2 ⟨title, content2, ty2⟩ = .ok r2 ∧
      r.contentDisposition =
        "attachment; filename=" ++ pyReplace title ' ' '_' ++ ".pdf" ∧
      r2.contentDisposition = r.contentDisposition := by
  obtain ⟨rest, h⟩ := generate_pdf_shape parse ⟨title, content, ty⟩
  obtain ⟨rest2, h2⟩ := generate_pdf_shape parse2 ⟨title, content2, ty2⟩
  exact ⟨_, _, h, h2, rfl, rfl⟩

/-- C4: any type outside docs, agenda and planilhas yields the
title-only document (title paragraph and spacer, no content body),
successfully. -/
theorem claim4_unknown_type (parse : String → Except Unit Json)
    (title content ty : String)
    (h : ty ∉ (["docs", "agenda", "planilhas"] : List String)) :
    generate_pdf parse ⟨title, content, ty⟩ =
      .ok (mkResponse title (titleStory title)) := by
  have h1 : ty ≠ "docs" := by intro e; exact h (by simp [e])
  have h2 : ty ≠ "agenda" := by intro e; exact h (by simp [e])
  have h3 : ty ≠ "planilhas" := by intro e; exact h (by simp [e])
  simp [generate_pdf, h1, h2, h3]

/-- Witness for C4: the unrecognized type "pdf". -/
theorem claim4_witness :
    generate_pdf (fun _ => .error ()) ⟨"T", "c", "pdf"⟩ =
      .ok (mkResponse "T" (titleStory "T")) :=
  claim4_unknown_type _ "T" "c" "pdf" (by decide)

/-- C5: for type "planilhas" with content parsing to an empty array, the
document is title-only: no table block and no paragraph fallback. -/
theorem claim5_planilhas_empty (parse : String → Except Unit Json)
    (title content : String) (hp : parse content = .ok (Json.arr [])) :
    generate_pdf parse ⟨title, content, "planilhas"⟩ =
      .ok (mkResponse title (titleStory title)) := by
  have hpb : planilhasBlocks parse content = .ok [] := by
    simp [planilhasBlocks, hp, Json.truthy]
  simp [generate_pdf, hpb]

/-- Witness for C5: a parse returning the empty array. -/
theorem claim5_witness :
    generate_pdf (fun _ => .ok (Json.arr [])) ⟨"T", "[]", "planilhas"⟩ =
      .ok (mkResponse "T" (titleStory "T")) :=
  claim5_planilhas_empty _ "T" "[]" rfl

/-- C6: for type "agenda", whenever the structured build fails for any
reason (parse error or wrong shape), no error propagates: the render
succeeds and the story carries the raw content as a single Normal
paragraph after the title. -/
theorem claim6_agenda_fallback (parse : String → Except Unit Json)
    (title content : String) (h : agendaTable parse content = .error ()) :
    generate_pdf parse ⟨title, content, "agenda"⟩ =
      .ok (mkResponse title
        (titleStory title ++ [Block.paragraph content Style.normal])) := by
  simp [generate_pdf, h]

/-- Witness for C6: a parse that raises. -/
theorem claim6_witness :
    generate_pdf (fun _ => .error ()) ⟨"T", "not json", "agenda"⟩ =
      .ok (mkResponse "T"
        (titleStory "T" ++ [Block.paragraph "not json" Style.normal])) :=
  claim6_agenda_fallback _ "T" "not json" rfl

/-- C7: for every request triple the render operation terminates
successfully: it never returns an error, and yields a response with the
PDF media type and a nonempty story. -/
theorem claim7_no_fatal_error (parse : String → Except Unit Json)
    (data : PDFContentModel) :
    ∃ r, generate_pdf parse data = .ok r ∧
      r.mediaType = "application/pdf" ∧ r.story ≠ [] := by
  obtain ⟨rest, h⟩ := generate_pdf_shape parse data
  exact ⟨_, h, rfl, by simp [mkResponse, titleStory]⟩

/-- The agenda content string of the end-to-end example of the spec. -/
def exampleContent : String :=
  "[\x7b\"title\":\"Reunião\",\"date\":\"2024-01-10\",\"time\":\"10:00\",\"completed\":true\x7d]"

/-- `json.loads` on the example content string: one record with the
four fields of the example. -/
def exampleParse : String → Except Unit Json := fun s =>
  if s = exampleContent then
    .ok (Json.arr [Json.obj [("title", Json.str "Reunião"),
      ("date", Json.str "2024-01-10"), ("time", Json.str "10:00"),
      ("completed", Json.bool true)]])
  else .error ()

/-- C8: the end-to-end example: title "Relatório", type "agenda", one
completed record yields the four-column header, one body row ending in
"Concluído", and the filename "Relatório.pdf". -/
theorem claim8_example :
    generate_pdf exampleParse ⟨"Relatório", exampleContent, "agenda"⟩ =
      .ok { story := [Block.paragraph "Relatório" Style.customTitle,
              Block.spacer 1 12,
              Block.table
                [[Json.str "Título", Json.str "Data", Json.str "Hora",
                  Json.str "Status"],
                 [Json.str "Reunião", Json.str "2024-01-10", Json.str "10:00",
                  Json.str "Concluído"]]
                (some [180, 108, 72, 108]) TStyle.agenda]
            mediaType := "application/pdf"
            contentDisposition := "attachment; filename=Relatório.pdf" } := by
  rfl

/-- C9: the type dispatch compares strings exactly and case-sensitively:
case or whitespace variants of the recognized tags are unrecognized and
yield the title-only document, never the corresponding layout. -/
theorem claim9_exact_dispatch (parse : String → Except Unit Json)
    (title content : String) :
    generate_pdf parse ⟨title, content, "Docs"⟩ =
      .ok (mkResponse title (titleStory title)) ∧
    generate_pdf parse ⟨title, content, "AGENDA"⟩ =
      .ok (mkResponse title (titleStory title)) ∧
    generate_pdf parse ⟨title, content, "docs "⟩ =
      .ok (mkResponse title (titleStory title)) ∧
    generate_pdf parse ⟨title, content, " agenda"⟩ =
      .ok (mkResponse title (titleStory title)) ∧
    generate_pdf parse ⟨title, content, "Planilhas"⟩ =
      .ok (mkResponse title (titleStory title)) := by
  refine ⟨?_, ?_, ?_, ?_, ?_⟩ <;> simp [generate_pdf]

/-- C10: for every input the story begins with exactly the title
paragraph block followed by one spacer block before any content blocks,
so even title-only documents keep the spacer after the title. -/
theorem claim10_title_then_spacer (parse : String → Except Unit Json)
    (data : PDFContentModel) :
    ∃ rest r, generate_pdf parse data = .ok r ∧
      r.story = Block.paragraph data.title Style.customTitle ::
        Block.spacer 1 12 :: rest := by
  obtain ⟨rest, h⟩ := generate_pdf_shape parse data
  exact ⟨rest, _, h, rfl⟩

end PdfService
